import Mathlib

set_option maxHeartbeats 1000000

/-! Shallow embedding of `src/main.py`, a FastAPI read-only wrapper around the
Shopify catalog API.  The HTTP transport is abstracted as an `Upstream` oracle
mapping each request shape the code can issue to a typed response; every
operation returns its result together with the ordered list of upstream calls
it issued, so that request counts and ordering are provable.  Raised
`HTTPException`s are modelled as `Except.error`. -/

/-- Python truthiness of an optional string: `None` and `""` are falsy
(the module-level credentials are `os.getenv` results, `Optional[str]`). -/
def truthyOptStr : Option String → Bool
  | none => false
  | some s => !(s == "")

/-- The two process-wide settings `SHOPIFY_SHOP_URL` / `SHOPIFY_ACCESS_TOKEN`. -/
structure Config where
  shopify_shop_url : Option String
  shopify_access_token : Option String
deriving Repr, DecidableEq

/-- Python f-string interpolation of an optional string. -/
def optStr : Option String → String
  | none => "None"
  | some s => s

/-- The base listing URL built by `get_products` and `get_detailed_products`. -/
def productsUrl (cfg : Config) : String :=
  optStr cfg.shopify_shop_url ++ "/admin/api/2023-04/products.json"

/-- The guard `not SHOPIFY_SHOP_URL or not SHOPIFY_ACCESS_TOKEN` shared by the
credential checks. -/
def missingCreds (cfg : Config) : Bool :=
  !truthyOptStr cfg.shopify_shop_url || !truthyOptStr cfg.shopify_access_token

/-- A raised `fastapi.HTTPException` (status_code, detail). -/
structure HTTPException where
  status_code : Nat
  detail : String
deriving Repr, DecidableEq

/-- The `ConfigurationError` raised when credentials are missing. -/
def configError : HTTPException :=
  ⟨500, "Shopify credentials not configured"⟩

/-- The `ResolutionError` raised by `get_product_by_url`. -/
def resolutionError : HTTPException :=
  ⟨400, "Unable to extract product ID from URL"⟩

/-- Pydantic `Image` model (URL well-formedness is out of scope here). -/
structure Image where
  src : String
  alt : Option String
deriving Repr, DecidableEq

/-- A raw Shopify variant object as the JSON payloads carry it: the fields the
code reads (`id`, `title`, `price`, `sku`, `inventory_item_id`). -/
structure RawVariant where
  id : Int
  title : String
  price : String
  sku : Option String
  inventory_item_id : Int
deriving Repr, DecidableEq

/-- Pydantic `Variant` model (non-enriched; `inventory_item_id` is dropped). -/
structure Variant where
  id : Int
  title : String
  price : String
  sku : Option String
deriving Repr, DecidableEq

/-- Pydantic `VariantDetails` model (enriched form). -/
structure VariantDetails where
  id : Int
  title : String
  price : String
  sku : Option String
  available : Bool
  inventory_quantity : Int
deriving Repr, DecidableEq

/-- A raw Shopify product object (fields used by the pydantic models). -/
structure RawProduct where
  id : Int
  title : String
  body_html : Option String
  vendor : String
  product_type : String
  created_at : String
  updated_at : String
  published_at : Option String
  variants : List RawVariant
  images : List Image
deriving Repr, DecidableEq

/-- Pydantic `Product` model. -/
structure Product where
  id : Int
  title : String
  body_html : Option String
  vendor : String
  product_type : String
  created_at : String
  updated_at : String
  published_at : Option String
  variants : List Variant
  images : List Image
deriving Repr, DecidableEq

/-- Pydantic `ProductDetails` model. -/
structure ProductDetails where
  id : Int
  title : String
  body_html : Option String
  vendor : String
  product_type : String
  created_at : String
  updated_at : String
  published_at : Option String
  variants : List VariantDetails
  images : List Image
deriving Repr, DecidableEq

/-- Pydantic coercion `Variant(**raw)`. -/
def toVariant (v : RawVariant) : Variant :=
  ⟨v.id, v.title, v.price, v.sku⟩

/-- Pydantic coercion `Product(**raw)`. -/
def toProduct (p : RawProduct) : Product :=
  ⟨p.id, p.title, p.body_html, p.vendor, p.product_type, p.created_at,
   p.updated_at, p.published_at, p.variants.map toVariant, p.images⟩

/-- Pydantic `ProductsResponse` model. -/
structure ProductsResponse where
  products : List Product
deriving Repr, DecidableEq

/-- Pydantic `DetailedProductsResponse` model. -/
structure DetailedProductsResponse where
  products : List ProductDetails
deriving Repr, DecidableEq

/-- One `{inventory_item_id, available}` entry of an inventory-levels body.
`available` is `Int`: Shopify reports it as a (possibly negative) integer. -/
structure InventoryItem where
  inventory_item_id : Int
  available : Int
deriving Repr, DecidableEq

/-- An argument `get_product_details` can receive: a genuine integer id, or —
because `extract_product_id_from_url` returns the result of calling the async
`get_product_id_from_handle` without awaiting it — an un-awaited coroutine
object (carrying the handle it was created for), which the f-string then
interpolates into the request URL. -/
inductive ProductKey where
  | intId (id : Int)
  | coroutine (handle : String)
deriving Repr, DecidableEq

/-- Response to a listing request: HTTP status, the `products` body array, and
the `response.links.get("next", {}).get("url")` metadata. -/
structure ListingResponse where
  status : Nat
  products : List RawProduct
  nextLinkUrl : Option String
deriving Repr, DecidableEq

/-- Response to a single-product request: HTTP status and the `product` body. -/
structure ProductResponse where
  status : Nat
  product : RawProduct
deriving Repr, DecidableEq

/-- Response to an inventory-levels request. -/
structure InventoryResponse where
  status : Nat
  inventory_levels : List InventoryItem
deriving Repr, DecidableEq

/-- Response to a handle-lookup request (`products.json?handle=...`). -/
structure HandleLookupResponse where
  status : Nat
  products : List RawProduct
deriving Repr, DecidableEq

/-- The remote platform, abstracted per endpoint shape. -/
structure Upstream where
  listing : String → ListingResponse
  productById : ProductKey → ProductResponse
  inventory : List Int → InventoryResponse
  handleLookup : String → HandleLookupResponse

/-- One upstream HTTP request issued by the wrapper. -/
inductive Call where
  | listing (url : String)
  | productGet (key : ProductKey)
  | inventory (ids : List Int)
  | handleLookup (handle : String)
deriving Repr, DecidableEq

/-- The listing-request URLs of a trace, in order. -/
def listingUrls (calls : List Call) : List String :=
  calls.filterMap fun c =>
    match c with
    | Call.listing url => some url
    | _ => none

/-- Python `d[k] = v` on a dict represented as an insertion-ordered
association list. -/
def dictSet {α : Type} (d : List (Int × α)) (k : Int) (v : α) : List (Int × α) :=
  if d.any (fun p => p.1 == k) then
    d.map (fun p => if p.1 == k then (k, v) else p)
  else d ++ [(k, v)]

/-- Python `d.get(k)`. -/
def dictGet {α : Type} (d : List (Int × α)) (k : Int) : Option α :=
  (d.find? (fun p => p.1 == k)).map Prod.snd

/-- A dict built by iterating key/value pairs, as the comprehensions and the
`for` loop in the source do. -/
def buildDict {α : Type} (kvs : List (Int × α)) : List (Int × α) :=
  kvs.foldl (fun d kv => dictSet d kv.1 kv.2) []

/-- Python `x or 0` for an integer `x` (`0` is falsy). -/
def pyIntOr (x : Int) : Int :=
  if x == 0 then 0 else x

/-- Python `x or 0` for `x` an optional integer (`d.get(k) or 0`). -/
def pyOptIntOr : Option Int → Int
  | none => 0
  | some n => if n == 0 then 0 else n

/-- The per-item value `{"available": item["available"],
"inventory_quantity": item["available"]}` stored by `fetch_inventory_levels`. -/
structure InvInfo where
  available : Int
  inventory_quantity : Int
deriving Repr, DecidableEq

/-- The dict `fetch_inventory_levels` builds from a response body. -/
def inventoryDictD (items : List InventoryItem) : List (Int × InvInfo) :=
  buildDict (items.map fun it => (it.inventory_item_id, ⟨it.available, it.available⟩))

/-- The dict comprehension in `get_product_details`:
`{item["inventory_item_id"]: item["available"] for item in ...}`. -/
def inventoryDictS (items : List InventoryItem) : List (Int × Int) :=
  buildDict (items.map fun it => (it.inventory_item_id, it.available))

/-- The loop body of `get_detailed_products` on one variant: look up the
inventory info (defaulting to zeroes), take `quantity = ... or 0`, set
`available = quantity > 0` and `inventory_quantity = quantity`. -/
def enrichVariantD (levels : List (Int × InvInfo)) (v : RawVariant) : VariantDetails :=
  let info := (dictGet levels v.inventory_item_id).getD ⟨0, 0⟩
  let quantity := pyIntOr info.inventory_quantity
  ⟨v.id, v.title, v.price, v.sku, decide (quantity > 0), quantity⟩

/-- The loop body of `get_product_details` on one variant:
`inventory_level = inventory_levels.get(id) or 0`, then
`available = inventory_level > 0`, `inventory_quantity = inventory_level`. -/
def enrichVariantS (levels : List (Int × Int)) (v : RawVariant) : VariantDetails :=
  let inventory_level := pyOptIntOr (dictGet levels v.inventory_item_id)
  ⟨v.id, v.title, v.price, v.sku, decide (inventory_level > 0), inventory_level⟩

/-- `ProductDetails(**product)` after the mutation loop of
`get_detailed_products`. -/
def processProduct (levels : List (Int × InvInfo)) (p : RawProduct) : ProductDetails :=
  ⟨p.id, p.title, p.body_html, p.vendor, p.product_type, p.created_at,
   p.updated_at, p.published_at, p.variants.map (enrichVariantD levels), p.images⟩

/-- `ProductDetails(**product_data)` after the mutation loop of
`get_product_details`. -/
def assembleDetails (p : RawProduct) (levels : List (Int × Int)) : ProductDetails :=
  ⟨p.id, p.title, p.body_html, p.vendor, p.product_type, p.created_at,
   p.updated_at, p.published_at, p.variants.map (enrichVariantS levels), p.images⟩

/-- The inventory-item ids of one page, in the order the list comprehension
`[variant["inventory_item_id"] for product in ... for variant in ...]`
collects them. -/
def allVariantItemIds (products_data : List RawProduct) : List Int :=
  products_data.flatMap fun p => p.variants.map RawVariant.inventory_item_id

/-- `GET /products`. -/
def get_products (cfg : Config) (u : Upstream) :
    Except HTTPException ProductsResponse × List Call :=
  if missingCreds cfg then (Except.error configError, [])
  else
    let url := productsUrl cfg
    let resp := u.listing url
    if resp.status ≠ 200 then
      (Except.error ⟨resp.status, "Failed to fetch products from Shopify"⟩,
       [Call.listing url])
    else
      (Except.ok ⟨resp.products.map toProduct⟩, [Call.listing url])

/-- `fetch_inventory_levels`: one batched inventory request, failing with the
upstream status when non-200, otherwise the id-to-info dict. -/
def fetch_inventory_levels (u : Upstream) (variant_ids : List Int) :
    Except HTTPException (List (Int × InvInfo)) × List Call :=
  let resp := u.inventory variant_ids
  if resp.status ≠ 200 then
    (Except.error ⟨resp.status, "Failed to fetch inventory levels from Shopify"⟩,
     [Call.inventory variant_ids])
  else
    (Except.ok (inventoryDictD resp.inventory_levels), [Call.inventory variant_ids])

/-- The `while next_url:` loop of `get_detailed_products`, with explicit fuel
(the Python loop has no bound; `none` in the first component means the fuel ran
out before the walk terminated). -/
def detailedLoop (cfg : Config) (u : Upstream) :
    Nat → Option String → List ProductDetails →
    Option (Except HTTPException (List ProductDetails)) × List Call
  | _, none, acc => (some (Except.ok acc), [])
  | 0, some url, acc =>
    if url = "" then (some (Except.ok acc), []) else (none, [])
  | fuel + 1, some url, acc =>
    if url = "" then (some (Except.ok acc), [])
    else
      let resp := u.listing url
      if resp.status ≠ 200 then
        (some (Except.error ⟨resp.status, "Failed to fetch products from Shopify"⟩),
         [Call.listing url])
      else
        let products_data := resp.products
        let ids := allVariantItemIds products_data
        let inv := fetch_inventory_levels u ids
        match inv.1 with
        | Except.error e => (some (Except.error e), Call.listing url :: inv.2)
        | Except.ok inventory_levels =>
          let acc' := acc ++ products_data.map (processProduct inventory_levels)
          let r := detailedLoop cfg u fuel resp.nextLinkUrl acc'
          (r.1, Call.listing url :: (inv.2 ++ r.2))

/-- `GET /detailed-products`. -/
def get_detailed_products (cfg : Config) (u : Upstream) (fuel : Nat) :
    Option (Except HTTPException DetailedProductsResponse) × List Call :=
  if missingCreds cfg then (some (Except.error configError), [])
  else
    let r := detailedLoop cfg u fuel (some (productsUrl cfg)) []
    (r.1.map (Except.map DetailedProductsResponse.mk), r.2)

/-- `GET /products/{product_id}`. -/
def get_product_details (cfg : Config) (u : Upstream) (product_id : ProductKey) :
    Except HTTPException ProductDetails × List Call :=
  if missingCreds cfg then (Except.error configError, [])
  else
    let resp := u.productById product_id
    if resp.status ≠ 200 then
      (Except.error ⟨resp.status, "Failed to fetch product details from Shopify"⟩,
       [Call.productGet product_id])
    else
      let product_data := resp.product
      let inventory_item_ids := product_data.variants.map RawVariant.inventory_item_id
      let invResp := u.inventory inventory_item_ids
      if invResp.status ≠ 200 then
        (Except.error ⟨invResp.status, "Failed to fetch inventory levels from Shopify"⟩,
         [Call.productGet product_id, Call.inventory inventory_item_ids])
      else
        (Except.ok (assembleDetails product_data (inventoryDictS invResp.inventory_levels)),
         [Call.productGet product_id, Call.inventory inventory_item_ids])

/-- Leftmost `re.search` of the pattern `<pre>([^/]+)`: at the first position
where the literal `pre` is followed by at least one non-slash character, the
maximal non-slash run is the group. -/
def searchSegAfter (pre : List Char) : List Char → Option (List Char)
  | [] => none
  | c :: cs =>
    if pre.isPrefixOf (c :: cs) then
      let tok := ((c :: cs).drop pre.length).takeWhile (fun ch => ch ≠ '/')
      if tok.isEmpty then searchSegAfter pre cs else some tok
    else searchSegAfter pre cs

/-- Leftmost `re.search` of `/products/([^/]+)/(\d+)`; the code only ever
reads group 1, so only that group is returned. -/
def searchHandleThenId : List Char → Option (List Char)
  | [] => none
  | c :: cs =>
    if "/products/".toList.isPrefixOf (c :: cs) then
      let rest := (c :: cs).drop 10
      let tok := rest.takeWhile (fun ch => ch ≠ '/')
      let after := rest.drop tok.length
      if !tok.isEmpty && after.head? == some '/' &&
          ((after.drop 1).head?.map Char.isDigit).getD false then
        some tok
      else searchHandleThenId cs
    else searchHandleThenId cs

/-- Leftmost `re.search` of `<pre>(\d+)`: at the first position where the
literal `pre` is followed by at least one digit, the maximal digit run is the
group. -/
def searchLitDigits (pre : List Char) : List Char → Option (List Char)
  | [] => none
  | c :: cs =>
    if pre.isPrefixOf (c :: cs) then
      let ds := ((c :: cs).drop pre.length).takeWhile Char.isDigit
      if ds.isEmpty then searchLitDigits pre cs else some ds
    else searchLitDigits pre cs

/-- Python `str.isdigit` on an ASCII token (empty strings are not digits). -/
def isDigits (cs : List Char) : Bool :=
  !cs.isEmpty && cs.all Char.isDigit

/-- Python `int(...)` on a digit string. -/
def digitsToInt (cs : List Char) : Int :=
  Int.ofNat (cs.foldl (fun acc c => 10 * acc + (c.toNat - 48)) 0)

/-- What `extract_product_id_from_url` actually returns when it returns a
non-`None` value: an `int` in the digit branch, or — in the handle branch —
the un-awaited coroutine produced by calling `get_product_id_from_handle`
without `await` (the function is synchronous, so the call cannot be awaited;
the coroutine object is truthy and not `None`). -/
inductive ExtractResult where
  | pid (n : Int)
  | coroutine (handle : String)
deriving Repr, DecidableEq

/-- The branch taken on a regex match: numeric group 1 is converted with
`int`, a non-numeric group 1 yields the un-awaited
`get_product_id_from_handle` coroutine. -/
def matchBranch (tok : List Char) : ExtractResult :=
  if isDigits tok then ExtractResult.pid (digitsToInt tok)
  else ExtractResult.coroutine (String.mk tok)

/-- `extract_product_id_from_url`: the four patterns are tried in source
order; the first one that matches anywhere in the URL decides the result. -/
def extract_product_id_from_url (url : String) : Option ExtractResult :=
  let cs := url.toList
  match searchSegAfter "/products/".toList cs with
  | some tok => some (matchBranch tok)
  | none =>
    match searchHandleThenId cs with
    | some tok => some (matchBranch tok)
    | none =>
      match searchLitDigits "variant=".toList cs with
      | some ds => some (ExtractResult.pid (digitsToInt ds))
      | none =>
        match searchLitDigits "product/".toList cs with
        | some ds => some (ExtractResult.pid (digitsToInt ds))
        | none => none

/-- `get_product_id_from_handle`, modelled as if awaited (its body's own
semantics): on a 200 response the first product's id, otherwise `None`; a
non-success status is also mapped to `None`, never raised. -/
def get_product_id_from_handle (_cfg : Config) (u : Upstream) (handle : String) :
    Option Int × List Call :=
  let resp := u.handleLookup handle
  ((if resp.status == 200 then resp.products.head?.map RawProduct.id else none),
   [Call.handleLookup handle])

/-- `GET /product-by-url`.  Note: no credential check of its own, and the
extraction step is pure (the handle branch never awaits its coroutine, so no
lookup request is issued). -/
def get_product_by_url (cfg : Config) (u : Upstream) (url : String) :
    Except HTTPException ProductDetails × List Call :=
  match extract_product_id_from_url url with
  | none => (Except.error resolutionError, [])
  | some (ExtractResult.pid n) => get_product_details cfg u (ProductKey.intId n)
  | some (ExtractResult.coroutine h) => get_product_details cfg u (ProductKey.coroutine h)



/-- Per-page output of the detailed walk: the page's products enriched with
the inventory dict fetched for that page's item ids. -/
def pageOutput (u : Upstream) (ps : List RawProduct) : List ProductDetails :=
  ps.map (processProduct (inventoryDictD
    (u.inventory (allVariantItemIds ps)).inventory_levels))

/-- The full upstream call trace of a successful walk along a URL chain. -/
def chainTrace (u : Upstream) : (Nat → String) → List (List RawProduct) → List Call
  | _, [] => []
  | f, ps :: rest =>
    Call.listing (f 0) :: Call.inventory (allVariantItemIds ps) ::
      chainTrace u (fun i => f (i + 1)) rest

/-- The upstream serves the pages as a cursor chain along the URLs `f 0`,
`f 1`, …: each page responds 200 with its records and a next-link to the
following URL, the last page with no next-link. -/
def chainOk (u : Upstream) : (Nat → String) → List (List RawProduct) → Prop
  | _, [] => True
  | f, ps :: rest =>
    u.listing (f 0) = ⟨200, ps, if rest.isEmpty then none else some (f 1)⟩ ∧
    chainOk u (fun i => f (i + 1)) rest

/-- The upstream serves the pages as the start of a cursor chain along the
URLs `f 0`, `f 1`, …: each page — the last included — responds 200 with its
records and a next-link to the following URL, so the walk continues past the
listed pages at `f pages.length`. -/
def chainLinkOk (u : Upstream) : (Nat → String) → List (List RawProduct) → Prop
  | _, [] => True
  | f, ps :: rest =>
    u.listing (f 0) = ⟨200, ps, some (f 1)⟩ ∧
    chainLinkOk u (fun i => f (i + 1)) rest

/-- The error `get_detailed_products` raises when the page requested at
`urlF` fails: the listing failure when the listing request fails, otherwise
the inventory-levels failure of that page. -/
def nextPageError (u : Upstream) (urlF : String) : HTTPException :=
  if (u.listing urlF).status ≠ 200 then
    ⟨(u.listing urlF).status, "Failed to fetch products from Shopify"⟩
  else
    ⟨(u.inventory (allVariantItemIds (u.listing urlF).products)).status,
     "Failed to fetch inventory levels from Shopify"⟩

/-! Concrete fixtures used by witnesses and counterexamples. -/

/-- A variant whose inventory item 101 is present in `invItemsW`. -/
def variantA : RawVariant := ⟨11, "Variant A", "10.00", none, 101⟩

/-- A variant whose inventory item 102 is absent from `invItemsW`. -/
def variantB : RawVariant := ⟨12, "Variant B", "12.00", some "SKU-B", 102⟩

/-- A variant whose inventory item 201 has reported quantity 0. -/
def variantC : RawVariant := ⟨21, "Variant C", "5.00", none, 201⟩

def rawProductA : RawProduct :=
  ⟨1, "Alpha", none, "Acme", "Shirt", "2024-01-01", "2024-01-02", none,
   [variantA, variantB], []⟩

def rawProductB : RawProduct :=
  ⟨2, "Beta", some "<p>b</p>", "Acme", "Hat", "2024-02-01", "2024-02-02",
   some "2024-02-03", [variantC], []⟩

/-- A fully populated configuration. -/
def cfgW : Config := ⟨some "https://shop.example", some "tok"⟩

/-- The configuration with both settings missing. -/
def cfg0 : Config := ⟨none, none⟩

/-- The next-page URL the first listing page of `uW` supplies. -/
def pageUrl2 : String :=
  "https://shop.example/admin/api/2023-04/products.json?page_info=2"

def invItemsW : List InventoryItem := [⟨101, 5⟩, ⟨201, 0⟩]

/-- A healthy upstream: two listing pages, product 7 resolvable, constant
inventory response, handle lookups finding no products. -/
def uW : Upstream where
  listing := fun url =>
    if url = productsUrl cfgW then ⟨200, [rawProductA], some pageUrl2⟩
    else if url = pageUrl2 then ⟨200, [rawProductB], none⟩
    else ⟨404, [], none⟩
  productById := fun key =>
    if key = ProductKey.intId 7 then ⟨200, rawProductA⟩ else ⟨404, rawProductA⟩
  inventory := fun _ => ⟨200, invItemsW⟩
  handleLookup := fun _ => ⟨200, []⟩

/-- The URL chain of `uW`. -/
def fW : Nat → String := fun i => if i = 0 then productsUrl cfgW else pageUrl2

/-- The detailed-products response `uW` yields. -/
def resDW : DetailedProductsResponse :=
  ⟨[processProduct (inventoryDictD invItemsW) rawProductA,
    processProduct (inventoryDictD invItemsW) rawProductB]⟩

/-- The single-product response `uW` yields for product 7. -/
def pdSW : ProductDetails := assembleDetails rawProductA (inventoryDictS invItemsW)

/-- An upstream reporting a negative available quantity. -/
def uNeg : Upstream where
  listing := fun _ => ⟨200, [rawProductA], none⟩
  productById := fun _ => ⟨200, rawProductB⟩
  inventory := fun _ => ⟨200, [⟨201, -3⟩]⟩
  handleLookup := fun _ => ⟨200, []⟩

/-- An upstream whose handle-lookup endpoint fails with 404 while having a
matching product. -/
def uH404 : Upstream where
  listing := fun _ => ⟨200, [], none⟩
  productById := fun _ => ⟨200, rawProductA⟩
  inventory := fun _ => ⟨200, []⟩
  handleLookup := fun _ => ⟨404, [rawProductA]⟩

/-- An upstream failing every endpoint with distinct non-success statuses. -/
def uFail : Upstream where
  listing := fun _ => ⟨404, [rawProductA], some pageUrl2⟩
  productById := fun _ => ⟨404, rawProductA⟩
  inventory := fun _ => ⟨503, invItemsW⟩
  handleLookup := fun _ => ⟨429, [rawProductA]⟩

/-- An upstream whose single-product endpoint succeeds but whose
inventory-levels endpoint fails. -/
def uInvFail : Upstream where
  listing := fun _ => ⟨200, [rawProductA], none⟩
  productById := fun _ => ⟨200, rawProductA⟩
  inventory := fun _ => ⟨503, []⟩
  handleLookup := fun _ => ⟨200, []⟩

/-- The URL of the third listing page of `uPage3Fail`. -/
def pageUrl3 : String :=
  "https://shop.example/admin/api/2023-04/products.json?page_info=3"

/-- An upstream whose first two listing pages succeed — each supplying a
next-link — and whose third listing page fails with status 500. -/
def uPage3Fail : Upstream where
  listing := fun url =>
    if url = productsUrl cfgW then ⟨200, [rawProductA], some pageUrl2⟩
    else if url = pageUrl2 then ⟨200, [rawProductB], some pageUrl3⟩
    else ⟨500, [], none⟩
  productById := fun _ => ⟨200, rawProductA⟩
  inventory := fun _ => ⟨200, invItemsW⟩
  handleLookup := fun _ => ⟨200, []⟩

/-- The URL chain of `uPage3Fail`. -/
def fW3 : Nat → String := fun i =>
  if i = 0 then productsUrl cfgW else if i = 1 then pageUrl2 else pageUrl3

/-! Helper lemmas about the dict model and the enrichment functions. -/

theorem mem_dictSet {α : Type} {d : List (Int × α)} {k : Int} {v : α}
    {p : Int × α} (hp : p ∈ dictSet d k v) : p = (k, v) ∨ p ∈ d := by
  unfold dictSet at hp
  split at hp
  · rcases List.mem_map.mp hp with ⟨q, hq, hqe⟩
    by_cases hk : (q.1 == k) = true
    · left; rw [if_pos hk] at hqe; exact hqe.symm
    · right; rw [if_neg hk] at hqe; exact hqe ▸ hq
  · rcases List.mem_append.mp hp with h | h
    · exact Or.inr h
    · left; simpa using h

theorem mem_foldl_dictSet {α : Type} :
    ∀ (kvs : List (Int × α)) (init : List (Int × α)) (p : Int × α),
      p ∈ List.foldl (fun d kv => dictSet d kv.1 kv.2) init kvs →
      p ∈ init ∨ p ∈ kvs := by
  intro kvs
  induction kvs with
  | nil => intro init p hp; exact Or.inl hp
  | cons kv rest ih =>
    intro init p hp
    rcases ih (dictSet init kv.1 kv.2) p hp with h | h
    · rcases mem_dictSet h with h' | h'
      · right; simp [h']
      · exact Or.inl h'
    · right; simp [h]

theorem mem_buildDict {α : Type} {kvs : List (Int × α)} {p : Int × α}
    (hp : p ∈ buildDict kvs) : p ∈ kvs := by
  rcases mem_foldl_dictSet kvs [] p hp with h | h
  · simp at h
  · exact h

theorem dictGet_eq_some_mem {α : Type} {d : List (Int × α)} {k : Int} {v : α}
    (h : dictGet d k = some v) : (k, v) ∈ d := by
  unfold dictGet at h
  rcases Option.map_eq_some'.mp h with ⟨q, hq, hv⟩
  have hmem := List.mem_of_find?_eq_some hq
  have hkey := List.find?_some hq
  simp only [beq_iff_eq] at hkey
  have : q = (k, v) := by
    rcases q with ⟨a, b⟩
    simp only at hv hkey
    simp [hkey, hv]
  exact this ▸ hmem

theorem dictGet_eq_none {α : Type} {d : List (Int × α)} {k : Int}
    (h : ∀ p ∈ d, p.1 ≠ k) : dictGet d k = none := by
  unfold dictGet
  have : d.find? (fun p => p.1 == k) = none := by
    rw [List.find?_eq_none]
    intro p hp
    simpa using h p hp
  simp [this]

theorem dictGet_buildDict_none {α : Type} {kvs : List (Int × α)} {k : Int}
    (h : ∀ kv ∈ kvs, kv.1 ≠ k) : dictGet (buildDict kvs) k = none :=
  dictGet_eq_none fun p hp => h p (mem_buildDict hp)

theorem dictGet_buildDict_some {α : Type} {kvs : List (Int × α)} {k : Int} {v : α}
    (h : dictGet (buildDict kvs) k = some v) : (k, v) ∈ kvs :=
  mem_buildDict (dictGet_eq_some_mem h)

theorem pyIntOr_eq (x : Int) : pyIntOr x = x := by
  unfold pyIntOr
  split
  · next h => exact (beq_iff_eq.mp h).symm
  · rfl

/-- The availability bit is computed from the stored quantity, never taken
independently (detailed-products path). -/
theorem enrichVariantD_inv (levels : List (Int × InvInfo)) (v : RawVariant) :
    (enrichVariantD levels v).available =
      decide ((enrichVariantD levels v).inventory_quantity > 0) := rfl

/-- The availability bit is computed from the stored quantity, never taken
independently (single-product path). -/
theorem enrichVariantS_inv (levels : List (Int × Int)) (v : RawVariant) :
    (enrichVariantS levels v).available =
      decide ((enrichVariantS levels v).inventory_quantity > 0) := rfl

/-- An inventory-item id absent from the response enriches to quantity 0 and
availability `false` (detailed-products path). -/
theorem enrichVariantD_absent (items : List InventoryItem) (v : RawVariant)
    (h : ∀ it ∈ items, it.inventory_item_id ≠ v.inventory_item_id) :
    enrichVariantD (inventoryDictD items) v =
      ⟨v.id, v.title, v.price, v.sku, false, 0⟩ := by
  unfold enrichVariantD
  have : dictGet (inventoryDictD items) v.inventory_item_id = none := by
    apply dictGet_buildDict_none
    intro kv hkv
    rcases List.mem_map.mp hkv with ⟨it, hit, rfl⟩
    exact h it hit
  simp [this, pyIntOr]

/-- An inventory-item id absent from the response enriches to quantity 0 and
availability `false` (single-product path). -/
theorem enrichVariantS_absent (items : List InventoryItem) (v : RawVariant)
    (h : ∀ it ∈ items, it.inventory_item_id ≠ v.inventory_item_id) :
    enrichVariantS (inventoryDictS items) v =
      ⟨v.id, v.title, v.price, v.sku, false, 0⟩ := by
  unfold enrichVariantS
  have : dictGet (inventoryDictS items) v.inventory_item_id = none := by
    apply dictGet_buildDict_none
    intro kv hkv
    rcases List.mem_map.mp hkv with ⟨it, hit, rfl⟩
    exact h it hit
  simp [this, pyOptIntOr]

/-- The enriched quantity is nonnegative as soon as every reported `available`
value is (detailed-products path). -/
theorem enrichVariantD_nonneg (items : List InventoryItem) (v : RawVariant)
    (h : ∀ it ∈ items, 0 ≤ it.available) :
    0 ≤ (enrichVariantD (inventoryDictD items) v).inventory_quantity := by
  unfold enrichVariantD
  cases hd : dictGet (inventoryDictD items) v.inventory_item_id with
  | none => simp [hd, pyIntOr]
  | some info =>
    have hd' := hd
    rw [inventoryDictD] at hd'
    have hmem := dictGet_buildDict_some hd'
    rcases List.mem_map.mp hmem with ⟨it, hit, heq⟩
    have : info = ⟨it.available, it.available⟩ := by
      have := congrArg Prod.snd heq
      simpa using this.symm
    simp only [hd, Option.getD_some, pyIntOr_eq, this]
    exact h it hit

/-- The enriched quantity is nonnegative as soon as every reported `available`
value is (single-product path). -/
theorem enrichVariantS_nonneg (items : List InventoryItem) (v : RawVariant)
    (h : ∀ it ∈ items, 0 ≤ it.available) :
    0 ≤ (enrichVariantS (inventoryDictS items) v).inventory_quantity := by
  unfold enrichVariantS
  cases hd : dictGet (inventoryDictS items) v.inventory_item_id with
  | none => simp [hd, pyOptIntOr]
  | some lvl =>
    have hd' := hd
    rw [inventoryDictS] at hd'
    have hmem := dictGet_buildDict_some hd'
    rcases List.mem_map.mp hmem with ⟨it, hit, heq⟩
    have hlvl : lvl = it.available := by
      have := congrArg Prod.snd heq
      simpa using this.symm
    simp only [hd, pyOptIntOr]
    split
    · exact le_refl 0
    · exact hlvl ▸ h it hit

/-! Operation-level helper lemmas. -/

/-- Success shape of `get_product_details` under good configuration and 200
statuses. -/
theorem get_product_details_ok (cfg : Config) (u : Upstream) (key : ProductKey)
    (hcfg : missingCreds cfg = false)
    (hp : (u.productById key).status = 200)
    (hi : (u.inventory ((u.productById key).product.variants.map
      RawVariant.inventory_item_id)).status = 200) :
    get_product_details cfg u key =
      (Except.ok (assembleDetails (u.productById key).product
        (inventoryDictS (u.inventory ((u.productById key).product.variants.map
          RawVariant.inventory_item_id)).inventory_levels)),
       [Call.productGet key,
        Call.inventory ((u.productById key).product.variants.map
          RawVariant.inventory_item_id)]) := by
  unfold get_product_details
  simp [hcfg, hp, hi]

/-- Whatever `get_product_details` successfully returns is the assembly of the
fetched product with the fetched inventory dict. -/
theorem get_product_details_ok_shape (cfg : Config) (u : Upstream)
    (key : ProductKey) (pd : ProductDetails)
    (h : (get_product_details cfg u key).1 = Except.ok pd) :
    pd = assembleDetails (u.productById key).product
      (inventoryDictS (u.inventory ((u.productById key).product.variants.map
        RawVariant.inventory_item_id)).inventory_levels) := by
  unfold get_product_details at h
  split at h
  · simp at h
  · dsimp only at h
    split at h
    · simp at h
    · split at h
      · simp at h
      · simpa using h.symm

/-- Every product the detailed loop successfully accumulates beyond its
initial accumulator is a `processProduct` of some page with the inventory dict
fetched for that page's ids. -/
theorem detailedLoop_inv (cfg : Config) (u : Upstream) (Q : ProductDetails → Prop)
    (hQ : ∀ (ids : List Int) (p : RawProduct),
      Q (processProduct (inventoryDictD (u.inventory ids).inventory_levels) p)) :
    ∀ (fuel : Nat) (nxt : Option String) (acc out : List ProductDetails),
      (∀ p ∈ acc, Q p) →
      (detailedLoop cfg u fuel nxt acc).1 = some (Except.ok out) →
      ∀ p ∈ out, Q p := by
  intro fuel
  induction fuel with
  | zero =>
    intro nxt acc out hacc h
    cases nxt with
    | none =>
      simp [detailedLoop] at h
      exact h ▸ hacc
    | some url =>
      by_cases hurl : url = ""
      · simp [detailedLoop, hurl] at h
        exact h ▸ hacc
      · simp [detailedLoop, hurl] at h
  | succ fuel ih =>
    intro nxt acc out hacc h
    cases nxt with
    | none =>
      simp [detailedLoop] at h
      exact h ▸ hacc
    | some url =>
      by_cases hurl : url = ""
      · simp [detailedLoop, hurl] at h
        exact h ▸ hacc
      · by_cases hstat : (u.listing url).status = 200
        · by_cases hinvs : (u.inventory (allVariantItemIds
            (u.listing url).products)).status = 200
          · simp only [detailedLoop, if_neg hurl, hstat, ne_eq,
              not_true_eq_false, if_false, fetch_inventory_levels, hinvs] at h
            refine ih _ _ out ?_ h
            intro p hp
            rcases List.mem_append.mp hp with h1 | h2
            · exact hacc p h1
            · rcases List.mem_map.mp h2 with ⟨q, hq, rfl⟩
              exact hQ _ q
          · simp [detailedLoop, hurl, hstat, fetch_inventory_levels, hinvs] at h
        · simp [detailedLoop, hurl, hstat] at h

/-- Transfer a per-variant property through a successful detailed-products
response. -/
theorem detailed_products_all (cfg : Config) (u : Upstream) (fuel : Nat)
    (resD : DetailedProductsResponse) (Q : VariantDetails → Prop)
    (hQ : ∀ (ids : List Int) (v : RawVariant),
      Q (enrichVariantD (inventoryDictD (u.inventory ids).inventory_levels) v))
    (h : (get_detailed_products cfg u fuel).1 = some (Except.ok resD)) :
    ∀ p ∈ resD.products, ∀ v ∈ p.variants, Q v := by
  unfold get_detailed_products at h
  split at h
  · simp at h
  · dsimp only at h
    cases hr : (detailedLoop cfg u fuel (some (productsUrl cfg)) []).1 with
    | none => rw [hr] at h; simp at h
    | some e =>
      rw [hr] at h
      cases e with
      | error a => simp [Except.map] at h
      | ok out =>
        simp only [Option.map_some', Except.map, Option.some.injEq,
          Except.ok.injEq] at h
        have hall := detailedLoop_inv cfg u
          (fun p => ∀ v ∈ p.variants, Q v)
          (fun ids p => by
            intro v hv
            rcases List.mem_map.mp (by simpa [processProduct] using hv) with ⟨q, hq, rfl⟩
            exact hQ ids q)
          fuel _ [] out (by simp) hr
        subst h
        intro p hp v hv
        exact hall p hp v hv

/-- Transfer a per-variant property through a successful single-product
response. -/
theorem details_all (cfg : Config) (u : Upstream) (key : ProductKey)
    (pd : ProductDetails) (Q : VariantDetails → Prop)
    (hQ : ∀ v : RawVariant, Q (enrichVariantS (inventoryDictS
      (u.inventory ((u.productById key).product.variants.map
        RawVariant.inventory_item_id)).inventory_levels) v))
    (h : (get_product_details cfg u key).1 = Except.ok pd) :
    ∀ v ∈ pd.variants, Q v := by
  have hs := get_product_details_ok_shape cfg u key pd h
  subst hs
  intro v hv
  rcases List.mem_map.mp (by simpa [assembleDetails] using hv) with ⟨q, hq, rfl⟩
  exact hQ q

/-- Transfer a per-variant property through a successful by-url response. -/
theorem by_url_all (cfg : Config) (u : Upstream) (url : String)
    (pd : ProductDetails) (Q : VariantDetails → Prop)
    (hQ : ∀ (key : ProductKey) (v : RawVariant),
      Q (enrichVariantS (inventoryDictS (u.inventory
        ((u.productById key).product.variants.map
          RawVariant.inventory_item_id)).inventory_levels) v))
    (h : (get_product_by_url cfg u url).1 = Except.ok pd) :
    ∀ v ∈ pd.variants, Q v := by
  unfold get_product_by_url at h
  cases hx : extract_product_id_from_url url with
  | none => rw [hx] at h; simp at h
  | some r =>
    rw [hx] at h
    cases r with
    | pid n => exact details_all cfg u (ProductKey.intId n) pd Q (hQ _) h
    | coroutine hdl => exact details_all cfg u (ProductKey.coroutine hdl) pd Q (hQ _) h

/-- Claim C1: in every enriched Product returned by any of the three enriching
operations, every variant satisfies `available == (inventory_quantity > 0)`. -/
theorem availability_iff_positive_quantity
    (cfg : Config) (u : Upstream) (fuel : Nat) (key : ProductKey) (url : String)
    (resD : DetailedProductsResponse) (pdS pdU : ProductDetails) :
    ((get_detailed_products cfg u fuel).1 = some (Except.ok resD) →
      ∀ p ∈ resD.products, ∀ v ∈ p.variants,
        v.available = decide (v.inventory_quantity > 0)) ∧
    ((get_product_details cfg u key).1 = Except.ok pdS →
      ∀ v ∈ pdS.variants, v.available = decide (v.inventory_quantity > 0)) ∧
    ((get_product_by_url cfg u url).1 = Except.ok pdU →
      ∀ v ∈ pdU.variants, v.available = decide (v.inventory_quantity > 0)) := by
  refine ⟨?_, ?_, ?_⟩
  · exact fun h => detailed_products_all cfg u fuel resD _
      (fun ids v => enrichVariantD_inv _ v) h
  · exact fun h => details_all cfg u key pdS _
      (fun v => enrichVariantS_inv _ v) h
  · exact fun h => by_url_all cfg u url pdU _
      (fun k v => enrichVariantS_inv _ v) h

/-- Witness for C1 at a concrete configuration, upstream and inputs. -/
theorem availability_iff_positive_quantity_witness :
    ((enrichVariantD (inventoryDictD invItemsW) variantA).available =
      decide ((enrichVariantD (inventoryDictD invItemsW) variantA).inventory_quantity > 0)) ∧
    ((enrichVariantS (inventoryDictS invItemsW) variantB).available =
      decide ((enrichVariantS (inventoryDictS invItemsW) variantB).inventory_quantity > 0)) ∧
    ((enrichVariantS (inventoryDictS invItemsW) variantA).available =
      decide ((enrichVariantS (inventoryDictS invItemsW) variantA).inventory_quantity > 0)) := by
  have h := availability_iff_positive_quantity cfgW uW 2 (ProductKey.intId 7)
    "/products/7" resDW pdSW pdSW
  exact ⟨h.1 rfl (processProduct (inventoryDictD invItemsW) rawProductA)
      (by decide) _ (by decide),
    h.2.1 rfl _ (by decide),
    h.2.2 rfl _ (by decide)⟩

/-- Claim C5: an inventory-item identifier absent from the inventory-levels
response yields quantity exactly 0 and availability `false`, and absence never
fails the operation (the operation succeeds whenever the transports do). -/
theorem absent_inventory_defaults_zero
    (cfg : Config) (u : Upstream) (key : ProductKey)
    (items : List InventoryItem) (v : RawVariant)
    (hcfg : missingCreds cfg = false)
    (hp : (u.productById key).status = 200)
    (hi : (u.inventory ((u.productById key).product.variants.map
      RawVariant.inventory_item_id)).status = 200)
    (habs : ∀ it ∈ items, it.inventory_item_id ≠ v.inventory_item_id) :
    (get_product_details cfg u key).1 =
      Except.ok (assembleDetails (u.productById key).product
        (inventoryDictS (u.inventory ((u.productById key).product.variants.map
          RawVariant.inventory_item_id)).inventory_levels)) ∧
    (enrichVariantS (inventoryDictS items) v).inventory_quantity = 0 ∧
    (enrichVariantS (inventoryDictS items) v).available = false ∧
    (enrichVariantD (inventoryDictD items) v).inventory_quantity = 0 ∧
    (enrichVariantD (inventoryDictD items) v).available = false := by
  refine ⟨?_, ?_, ?_, ?_, ?_⟩
  · rw [get_product_details_ok cfg u key hcfg hp hi]
  · rw [enrichVariantS_absent items v habs]
  · rw [enrichVariantS_absent items v habs]
  · rw [enrichVariantD_absent items v habs]
  · rw [enrichVariantD_absent items v habs]

/-- Witness for C5: item id 102 of `variantB` is absent from `invItemsW`. -/
theorem absent_inventory_defaults_zero_witness :
    (get_product_details cfgW uW (ProductKey.intId 7)).1 =
      Except.ok (assembleDetails rawProductA (inventoryDictS invItemsW)) ∧
    (enrichVariantS (inventoryDictS invItemsW) variantB).inventory_quantity = 0 ∧
    (enrichVariantS (inventoryDictS invItemsW) variantB).available = false ∧
    (enrichVariantD (inventoryDictD invItemsW) variantB).inventory_quantity = 0 ∧
    (enrichVariantD (inventoryDictD invItemsW) variantB).available = false := by
  exact absent_inventory_defaults_zero cfgW uW (ProductKey.intId 7) invItemsW
    variantB (by decide) (by decide) (by decide) (by decide)

/-- Counterexample to C8 as stated: an upstream reporting `available = -3` for
inventory item 201 makes `get_product_details` return that variant with
`inventory_quantity = -3`, a negative value. -/
theorem negative_inventory_passed_through :
    (get_product_details cfgW uNeg (ProductKey.intId 7)).1 =
      Except.ok (assembleDetails rawProductB (inventoryDictS [⟨201, -3⟩])) ∧
    (assembleDetails rawProductB (inventoryDictS [⟨201, -3⟩])).variants.map
      VariantDetails.inventory_quantity = [-3] ∧
    ((-3 : Int) < 0) := by
  refine ⟨rfl, by decide, by decide⟩

/-- Claim C8 (amended): every returned `inventory_quantity` is the upstream
value (0 when absent), hence nonnegative whenever every quantity the upstream
reports is nonnegative. -/
theorem inventory_quantity_nonneg_when_upstream_nonneg
    (cfg : Config) (u : Upstream) (fuel : Nat) (key : ProductKey) (url : String)
    (resD : DetailedProductsResponse) (pdS pdU : ProductDetails)
    (hnn : ∀ ids : List Int, ∀ it ∈ (u.inventory ids).inventory_levels,
      0 ≤ it.available) :
    ((get_detailed_products cfg u fuel).1 = some (Except.ok resD) →
      ∀ p ∈ resD.products, ∀ v ∈ p.variants, 0 ≤ v.inventory_quantity) ∧
    ((get_product_details cfg u key).1 = Except.ok pdS →
      ∀ v ∈ pdS.variants, 0 ≤ v.inventory_quantity) ∧
    ((get_product_by_url cfg u url).1 = Except.ok pdU →
      ∀ v ∈ pdU.variants, 0 ≤ v.inventory_quantity) := by
  refine ⟨?_, ?_, ?_⟩
  · exact fun h => detailed_products_all cfg u fuel resD _
      (fun ids v => enrichVariantD_nonneg _ v (hnn ids)) h
  · exact fun h => details_all cfg u key pdS _
      (fun v => enrichVariantS_nonneg _ v (hnn _)) h
  · exact fun h => by_url_all cfg u url pdU _
      (fun k v => enrichVariantS_nonneg _ v (hnn _)) h

/-- Witness for the amended C8 at the concrete healthy upstream. -/
theorem inventory_quantity_nonneg_witness :
    (0 ≤ (enrichVariantD (inventoryDictD invItemsW) variantA).inventory_quantity) ∧
    (0 ≤ (enrichVariantS (inventoryDictS invItemsW) variantB).inventory_quantity) ∧
    (0 ≤ (enrichVariantS (inventoryDictS invItemsW) variantA).inventory_quantity) := by
  have h := inventory_quantity_nonneg_when_upstream_nonneg cfgW uW 2
    (ProductKey.intId 7) "/products/7" resDW pdSW pdSW
    (fun ids => (by decide : ∀ it ∈ invItemsW, 0 ≤ it.available))
  exact ⟨h.1 rfl (processProduct (inventoryDictD invItemsW) rawProductA)
      (by decide) _ (by decide),
    h.2.1 rfl _ (by decide),
    h.2.2 rfl _ (by decide)⟩

/-- The base listing URL is never the empty string (its constant suffix is
nonempty), so the pagination loop always performs its first request. -/
theorem productsUrl_ne_empty (cfg : Config) : productsUrl cfg ≠ "" := by
  unfold productsUrl
  intro h
  have hd := congrArg String.data h
  rw [String.data_append] at hd
  have := congrArg List.length hd
  simp at this

/-- Claim C2 (code evaluated at the failing input): on
`/products/<handle>/<numeric-id>` URLs the broad first pattern
`/products/([^/]+)` matches the handle before the numeric-trailing-segment
pattern is ever tried, so the trailing numeric id is ignored and the handle
branch (an un-awaited handle-lookup coroutine) is taken instead. -/
theorem products_handle_trailing_numeric_ignored :
    extract_product_id_from_url
      "https://shop.example.com/products/blue-denim-jacket/1234567890" =
      some (ExtractResult.coroutine "blue-denim-jacket") ∧
    ((some (ExtractResult.coroutine "blue-denim-jacket") : Option ExtractResult) ==
      some (ExtractResult.pid 1234567890)) = false := ⟨rfl, by decide⟩

/-- Claim C3 (code evaluated at the failing input): for a non-numeric
`/products/<token>` URL the public operation issues no handle-lookup request
at all — the synchronous extractor returns the un-awaited coroutine of
`get_product_id_from_handle`, which is not `None`, so the 400 resolution
failure is skipped even though an awaited lookup would have found no products,
and the coroutine is passed to `get_product_details` as the product id. -/
theorem handle_url_lookup_never_awaited :
    extract_product_id_from_url "/products/blue-denim-jacket" =
      some (ExtractResult.coroutine "blue-denim-jacket") ∧
    get_product_id_from_handle cfgW uW "blue-denim-jacket" =
      (none, [Call.handleLookup "blue-denim-jacket"]) ∧
    get_product_by_url cfgW uW "/products/blue-denim-jacket" =
      (Except.error ⟨404, "Failed to fetch product details from Shopify"⟩,
       [Call.productGet (ProductKey.coroutine "blue-denim-jacket")]) :=
  ⟨rfl, rfl, rfl⟩

/-- Claim C9: `GET products` issues exactly one listing request and returns
only the first page's products, never reading the next-page link. -/
theorem get_products_single_request_first_page
    (cfg : Config) (u : Upstream)
    (hcfg : missingCreds cfg = false)
    (hok : (u.listing (productsUrl cfg)).status = 200) :
    get_products cfg u =
      (Except.ok ⟨(u.listing (productsUrl cfg)).products.map toProduct⟩,
       [Call.listing (productsUrl cfg)]) := by
  unfold get_products
  simp [hcfg, hok]

/-- Witness for C9: the first page of `uW` supplies a next-page link, and the
operation still performs a single listing request. -/
theorem get_products_single_request_first_page_witness :
    get_products cfgW uW =
      (Except.ok ⟨[toProduct rawProductA]⟩, [Call.listing (productsUrl cfgW)]) ∧
    (uW.listing (productsUrl cfgW)).nextLinkUrl = some pageUrl2 :=
  ⟨get_products_single_request_first_page cfgW uW rfl rfl, rfl⟩

/-- Counterexample to C7 as stated: with both credentials missing,
`GET product-by-url` on an unresolvable URL fails with the 400 resolution
error, not with the configuration error. -/
theorem product_by_url_missing_config_resolution_error :
    get_product_by_url cfg0 uW "no-match-here" = (Except.error resolutionError, []) ∧
    (resolutionError == configError) = false := ⟨rfl, by decide⟩

/-- Claim C7 (amended): when the base URL or the credential is missing, the
listing, detailed-listing and single-product operations fail with the
configuration error before any upstream call; `get_product_by_url` likewise
issues no upstream call, but resolves the URL first, so it fails with the
configuration error exactly when the URL resolves and with the 400 resolution
error otherwise. -/
theorem missing_config_fails_before_network
    (cfg : Config) (u : Upstream) (fuel : Nat) (key : ProductKey) (url : String)
    (hmc : missingCreds cfg = true) :
    get_products cfg u = (Except.error configError, []) ∧
    get_detailed_products cfg u fuel = (some (Except.error configError), []) ∧
    get_product_details cfg u key = (Except.error configError, []) ∧
    (get_product_by_url cfg u url).2 = [] ∧
    (∀ r, extract_product_id_from_url url = some r →
      (get_product_by_url cfg u url).1 = Except.error configError) ∧
    (extract_product_id_from_url url = none →
      (get_product_by_url cfg u url).1 = Except.error resolutionError) := by
  have hbyurl : ∀ k : ProductKey, get_product_details cfg u k =
      (Except.error configError, []) := by
    intro k; unfold get_product_details; simp [hmc]
  refine ⟨?_, ?_, hbyurl key, ?_, ?_, ?_⟩
  · unfold get_products; simp [hmc]
  · unfold get_detailed_products; simp [hmc]
  · unfold get_product_by_url
    cases hx : extract_product_id_from_url url with
    | none => rfl
    | some r =>
      cases r with
      | pid n => simp [hbyurl]
      | coroutine hdl => simp [hbyurl]
  · intro r hr
    unfold get_product_by_url
    rw [hr]
    cases r with
    | pid n => simp [hbyurl]
    | coroutine hdl => simp [hbyurl]
  · intro hr
    unfold get_product_by_url
    rw [hr]

/-- Witness for the amended C7 with both settings absent. -/
theorem missing_config_fails_before_network_witness :
    get_products cfg0 uW = (Except.error configError, []) ∧
    get_detailed_products cfg0 uW 3 = (some (Except.error configError), []) ∧
    get_product_details cfg0 uW (ProductKey.intId 7) = (Except.error configError, []) ∧
    (get_product_by_url cfg0 uW "/products/7").1 = Except.error configError ∧
    (get_product_by_url cfg0 uW "no-match-here").1 = Except.error resolutionError := by
  have h1 := missing_config_fails_before_network cfg0 uW 3 (ProductKey.intId 7)
    "/products/7" rfl
  have h2 := missing_config_fails_before_network cfg0 uW 3 (ProductKey.intId 7)
    "no-match-here" rfl
  exact ⟨h1.1, h1.2.1, h1.2.2.1,
    h1.2.2.2.2.1 (ExtractResult.pid 7) rfl, h2.2.2.2.2.2 rfl⟩

/-- Counterexample to C6 as stated: a handle-lookup call answered with
status 404 — even with a matching product in the body — is swallowed into
`None`; no `UpstreamError` carrying status 404 is raised for it. -/
theorem handle_lookup_swallows_upstream_status :
    (uH404.handleLookup "blue-denim-jacket").status = 404 ∧
    (uH404.handleLookup "blue-denim-jacket").products = [rawProductA] ∧
    get_product_id_from_handle cfgW uH404 "blue-denim-jacket" =
      (none, [Call.handleLookup "blue-denim-jacket"]) :=
  ⟨rfl, rfl, rfl⟩

/-- Claim C6 (amended): listing, single-product and inventory-levels calls
propagate a non-success status verbatim as the failure of the triggering
operation, each with exactly one request per upstream endpoint and no retry;
the handle-lookup helper instead swallows any non-success status into `None`. -/
theorem upstream_status_propagated_verbatim
    (cfg : Config) (u1 u2 u3 u4 u5 : Upstream) (key3 key4 : ProductKey)
    (hdl : String) (fuel : Nat)
    (hcfg : missingCreds cfg = false)
    (h1 : (u1.listing (productsUrl cfg)).status ≠ 200)
    (h2 : (u2.listing (productsUrl cfg)).status ≠ 200)
    (h3 : (u3.productById key3).status ≠ 200)
    (h4p : (u4.productById key4).status = 200)
    (h4 : (u4.inventory ((u4.productById key4).product.variants.map
      RawVariant.inventory_item_id)).status ≠ 200)
    (h5 : (u5.handleLookup hdl).status ≠ 200) :
    get_products cfg u1 =
      (Except.error ⟨(u1.listing (productsUrl cfg)).status,
        "Failed to fetch products from Shopify"⟩,
       [Call.listing (productsUrl cfg)]) ∧
    get_detailed_products cfg u2 (fuel + 1) =
      (some (Except.error ⟨(u2.listing (productsUrl cfg)).status,
        "Failed to fetch products from Shopify"⟩),
       [Call.listing (productsUrl cfg)]) ∧
    get_product_details cfg u3 key3 =
      (Except.error ⟨(u3.productById key3).status,
        "Failed to fetch product details from Shopify"⟩,
       [Call.productGet key3]) ∧
    get_product_details cfg u4 key4 =
      (Except.error ⟨(u4.inventory ((u4.productById key4).product.variants.map
          RawVariant.inventory_item_id)).status,
        "Failed to fetch inventory levels from Shopify"⟩,
       [Call.productGet key4,
        Call.inventory ((u4.productById key4).product.variants.map
          RawVariant.inventory_item_id)]) ∧
    get_product_id_from_handle cfg u5 hdl = (none, [Call.handleLookup hdl]) := by
  refine ⟨?_, ?_, ?_, ?_, ?_⟩
  · unfold get_products
    simp [hcfg, h1]
  · unfold get_detailed_products
    rw [if_neg (by simp [hcfg])]
    rw [detailedLoop]
    rw [if_neg (productsUrl_ne_empty cfg)]
    simp [h2, Except.map]
  · unfold get_product_details
    simp [hcfg, h3]
  · unfold get_product_details
    simp [hcfg, h4p, h4]
  · unfold get_product_id_from_handle
    simp [h5]

/-- Witness for the amended C6 at concrete failing upstreams. -/
theorem upstream_status_propagated_verbatim_witness :
    get_products cfgW uFail =
      (Except.error ⟨404, "Failed to fetch products from Shopify"⟩,
       [Call.listing (productsUrl cfgW)]) ∧
    get_product_details cfgW uInvFail (ProductKey.intId 7) =
      (Except.error ⟨503, "Failed to fetch inventory levels from Shopify"⟩,
       [Call.productGet (ProductKey.intId 7), Call.inventory [101, 102]]) ∧
    get_product_id_from_handle cfgW uFail "blue-denim-jacket" =
      (none, [Call.handleLookup "blue-denim-jacket"]) := by
  have h := upstream_status_propagated_verbatim cfgW uFail uFail uFail uInvFail
    uFail (ProductKey.intId 7) (ProductKey.intId 7) "blue-denim-jacket" 0 rfl
    (by decide) (by decide) (by decide) (by decide) (by decide) (by decide)
  exact ⟨h.1, h.2.2.2.1, h.2.2.2.2⟩

/-- The pagination loop on an exhausted cursor returns the accumulator with no
further request. -/
theorem detailedLoop_none (cfg : Config) (u : Upstream) (fuel : Nat)
    (acc : List ProductDetails) :
    detailedLoop cfg u fuel none acc = (some (Except.ok acc), []) := by
  cases fuel <;> rfl

/-- One successful step of the pagination loop: a 200 page is enriched and
appended, then the loop continues at the page's next-link. -/
theorem detailedLoop_step (cfg : Config) (u : Upstream) (fuel : Nat)
    (url : String) (acc : List ProductDetails) (ps : List RawProduct)
    (nxt : Option String)
    (hurl : url ≠ "")
    (hl : u.listing url = ⟨200, ps, nxt⟩)
    (hinv : (u.inventory (allVariantItemIds ps)).status = 200) :
    detailedLoop cfg u (fuel + 1) (some url) acc =
      ((detailedLoop cfg u fuel nxt (acc ++ ps.map (processProduct
          (inventoryDictD (u.inventory (allVariantItemIds ps)).inventory_levels)))).1,
       Call.listing url :: Call.inventory (allVariantItemIds ps) ::
         (detailedLoop cfg u fuel nxt (acc ++ ps.map (processProduct
           (inventoryDictD (u.inventory (allVariantItemIds ps)).inventory_levels)))).2) := by
  rw [detailedLoop, if_neg hurl, hl]
  simp [fetch_inventory_levels, hinv]

/-- A non-200 listing page aborts the loop with that status after the single
listing request. -/
theorem detailedLoop_step_fail (cfg : Config) (u : Upstream) (fuel : Nat)
    (url : String) (acc : List ProductDetails)
    (hurl : url ≠ "")
    (hstat : (u.listing url).status ≠ 200) :
    detailedLoop cfg u (fuel + 1) (some url) acc =
      (some (Except.error ⟨(u.listing url).status,
        "Failed to fetch products from Shopify"⟩),
       [Call.listing url]) := by
  rw [detailedLoop, if_neg hurl]
  simp [hstat]

/-- A 200 listing page followed by a non-200 inventory response aborts the
loop with the inventory status after the two requests. -/
theorem detailedLoop_step_invfail (cfg : Config) (u : Upstream) (fuel : Nat)
    (url : String) (acc : List ProductDetails) (ps : List RawProduct)
    (nxt : Option String)
    (hurl : url ≠ "")
    (hl : u.listing url = ⟨200, ps, nxt⟩)
    (hinv : (u.inventory (allVariantItemIds ps)).status ≠ 200) :
    detailedLoop cfg u (fuel + 1) (some url) acc =
      (some (Except.error ⟨(u.inventory (allVariantItemIds ps)).status,
        "Failed to fetch inventory levels from Shopify"⟩),
       [Call.listing url, Call.inventory (allVariantItemIds ps)]) := by
  rw [detailedLoop, if_neg hurl, hl]
  simp [fetch_inventory_levels, hinv]

/-- The indexed chain description implies the recursive one. -/
theorem chainOk_of_indexed (u : Upstream) :
    ∀ (pages : List (List RawProduct)) (f : Nat → String),
      (∀ i, i < pages.length → u.listing (f i) =
        ⟨200, pages.getD i [],
         if i + 1 < pages.length then some (f (i + 1)) else none⟩) →
      chainOk u f pages := by
  intro pages
  induction pages with
  | nil => intro f _; trivial
  | cons ps rest ih =>
    intro f h
    constructor
    · have h0 := h 0 (by simp)
      simp only [List.getD_cons_zero] at h0
      rw [h0]
      congr 1
      cases rest with
      | nil => simp
      | cons q r2 => simp
    · apply ih
      intro i hi
      have hh := h (i + 1) (by simp only [List.length_cons] at hi ⊢; omega)
      simp only [List.getD_cons_succ] at hh
      rw [hh]
      congr 1
      apply if_congr ?_ rfl rfl
      simp only [List.length_cons]
      omega

/-- Core pagination-walk theorem: along a cursor chain the loop returns the
page-ordered concatenation of the enriched pages and performs exactly the
chain's trace, given enough fuel. -/
theorem detailedLoop_chain (cfg : Config) (u : Upstream)
    (hinv : ∀ ids, (u.inventory ids).status = 200) :
    ∀ (pages : List (List RawProduct)) (f : Nat → String) (extraFuel : Nat)
      (acc : List ProductDetails),
      pages ≠ [] →
      (∀ i, i < pages.length → f i ≠ "") →
      chainOk u f pages →
      detailedLoop cfg u (pages.length + extraFuel) (some (f 0)) acc =
        (some (Except.ok (acc ++ (pages.map (pageOutput u)).flatten)),
         chainTrace u f pages) := by
  intro pages
  induction pages with
  | nil => intro f extraFuel acc hne; exact absurd rfl hne
  | cons ps rest ih =>
    intro f extraFuel acc _ hne hchain
    have hf0 : f 0 ≠ "" := hne 0 (by simp)
    have hfuel : (ps :: rest).length + extraFuel = (rest.length + extraFuel) + 1 := by
      simp only [List.length_cons]
      omega
    rw [hfuel]
    cases rest with
    | nil =>
      have hl0 : u.listing (f 0) = ⟨200, ps, none⟩ := by
        simpa [chainOk] using hchain.1
      rw [detailedLoop_step cfg u (List.length [] + extraFuel) (f 0) acc ps none
        hf0 hl0 (hinv _)]
      rw [detailedLoop_none]
      simp [pageOutput, chainTrace]
    | cons q rest2 =>
      have hl0 : u.listing (f 0) = ⟨200, ps, some (f 1)⟩ := by
        simpa [chainOk] using hchain.1
      rw [detailedLoop_step cfg u (List.length (q :: rest2) + extraFuel) (f 0) acc
        ps (some (f 1)) hf0 hl0 (hinv _)]
      have ihh := ih (fun i => f (i + 1)) extraFuel
        (acc ++ ps.map (processProduct
          (inventoryDictD (u.inventory (allVariantItemIds ps)).inventory_levels)))
        (by simp)
        (fun i hi => hne (i + 1) (by simp only [List.length_cons] at hi ⊢; omega))
        hchain.2
      rw [ihh]
      simp [pageOutput, chainTrace]

/-- The listing requests of a chain trace are exactly the chain's URLs in
order. -/
theorem listingUrls_chainTrace (u : Upstream) :
    ∀ (pages : List (List RawProduct)) (f : Nat → String),
      listingUrls (chainTrace u f pages) = (List.range pages.length).map f := by
  intro pages
  induction pages with
  | nil => intro f; rfl
  | cons ps rest ih =>
    intro f
    simp only [chainTrace, listingUrls, List.filterMap_cons]
    rw [← listingUrls]
    rw [ih (fun i => f (i + 1))]
    rw [List.length_cons, List.range_succ_eq_map]
    simp [List.map_map]

/-- Claim C4: a pagination walk over N chained pages — each page responding
200 with a next-link to its successor and the last with none — yields the
concatenation of all N pages' enriched records in page order and issues
exactly N listing requests, at the chain's URLs in order: no refetch of the
first page and no extra listing call after termination. -/
theorem pagination_walk_concatenation_and_count
    (cfg : Config) (u : Upstream) (pages : List (List RawProduct))
    (f : Nat → String) (extraFuel : Nat)
    (hcfg : missingCreds cfg = false)
    (hne0 : pages ≠ [])
    (hf0 : f 0 = productsUrl cfg)
    (hne : ∀ i, i < pages.length → f i ≠ "")
    (hlist : ∀ i, i < pages.length → u.listing (f i) =
      ⟨200, pages.getD i [],
       if i + 1 < pages.length then some (f (i + 1)) else none⟩)
    (hinv : ∀ ids, (u.inventory ids).status = 200) :
    get_detailed_products cfg u (pages.length + extraFuel) =
      (some (Except.ok ⟨(pages.map (pageOutput u)).flatten⟩),
       chainTrace u f pages) ∧
    listingUrls (chainTrace u f pages) = (List.range pages.length).map f := by
  constructor
  · unfold get_detailed_products
    rw [if_neg (by simp [hcfg])]
    rw [← hf0]
    rw [detailedLoop_chain cfg u hinv pages f extraFuel [] hne0 hne
      (chainOk_of_indexed u pages f hlist)]
    simp [Except.map]
  · exact listingUrls_chainTrace u pages f

/-- Witness for C4: two chained pages of `uW`, two listing requests at the two
chain URLs, and both pages' enriched products in order. -/
theorem pagination_walk_concatenation_and_count_witness :
    get_detailed_products cfgW uW 2 =
      (some (Except.ok resDW),
       [Call.listing (productsUrl cfgW), Call.inventory [101, 102],
        Call.listing pageUrl2, Call.inventory [201]]) ∧
    listingUrls [Call.listing (productsUrl cfgW), Call.inventory [101, 102],
      Call.listing pageUrl2, Call.inventory [201]] = [productsUrl cfgW, pageUrl2] := by
  have h := pagination_walk_concatenation_and_count cfgW uW
    [[rawProductA], [rawProductB]] fW 0 rfl (by decide) rfl (by decide)
    (by decide) (fun ids => rfl)
  exact ⟨h.1, h.2⟩

/-- Walking a successful chain prefix: after consuming the linked pages the
loop continues at the URL following the prefix, with the enriched pages
appended to the accumulator and the prefix's trace emitted. -/
theorem detailedLoop_chain_front (cfg : Config) (u : Upstream) :
    ∀ (pages : List (List RawProduct)) (f : Nat → String) (extraFuel : Nat)
      (acc : List ProductDetails),
      (∀ i, i < pages.length → f i ≠ "") →
      (∀ ps ∈ pages, (u.inventory (allVariantItemIds ps)).status = 200) →
      chainLinkOk u f pages →
      detailedLoop cfg u (pages.length + extraFuel) (some (f 0)) acc =
        ((detailedLoop cfg u extraFuel (some (f pages.length))
            (acc ++ (pages.map (pageOutput u)).flatten)).1,
         chainTrace u f pages ++
           (detailedLoop cfg u extraFuel (some (f pages.length))
             (acc ++ (pages.map (pageOutput u)).flatten)).2) := by
  intro pages
  induction pages with
  | nil =>
    intro f extraFuel acc _ _ _
    simp [chainTrace]
  | cons ps rest ih =>
    intro f extraFuel acc hne hinv hchain
    have hf0 : f 0 ≠ "" := hne 0 (by simp)
    have hfuel : (ps :: rest).length + extraFuel = (rest.length + extraFuel) + 1 := by
      simp only [List.length_cons]
      omega
    rw [hfuel]
    rw [detailedLoop_step cfg u (rest.length + extraFuel) (f 0) acc ps
      (some (f 1)) hf0 hchain.1 (hinv ps (by simp))]
    have ihh := ih (fun i => f (i + 1)) extraFuel
      (acc ++ ps.map (processProduct
        (inventoryDictD (u.inventory (allVariantItemIds ps)).inventory_levels)))
      (fun i hi => hne (i + 1) (by simp only [List.length_cons] at hi ⊢; omega))
      (fun q hq => hinv q (by simp [hq]))
      hchain.2
    rw [ihh]
    simp [pageOutput, chainTrace, List.length_cons]

/-- Claim C10: after any nonempty prefix of successfully assembled pages, a
failure of the next page's listing request or of that page's inventory-levels
request fails the whole detailed-products operation with that upstream
failure; none of the products assembled from the earlier pages are returned. -/
theorem detailed_products_atomic_on_failure
    (cfg : Config) (u : Upstream) (extraFuel : Nat)
    (pages : List (List RawProduct)) (f : Nat → String) (urlF : String)
    (hcfg : missingCreds cfg = false)
    (_hne0 : pages ≠ [])
    (hf0 : f 0 = productsUrl cfg)
    (hne : ∀ i, i < pages.length → f i ≠ "")
    (hlink : chainLinkOk u f pages)
    (hurlF : f pages.length = urlF)
    (hurlFne : urlF ≠ "")
    (hinvPrefix : ∀ ps ∈ pages, (u.inventory (allVariantItemIds ps)).status = 200)
    (hfail : (u.listing urlF).status ≠ 200 ∨
      ((u.listing urlF).status = 200 ∧
        (u.inventory (allVariantItemIds (u.listing urlF).products)).status ≠ 200)) :
    (get_detailed_products cfg u (pages.length + (extraFuel + 1))).1 =
      some (Except.error (nextPageError u urlF)) := by
  unfold get_detailed_products
  rw [if_neg (by simp [hcfg])]
  rw [← hf0]
  rw [detailedLoop_chain_front cfg u pages f (extraFuel + 1) [] hne hinvPrefix hlink]
  rw [hurlF]
  dsimp only
  rcases hfail with hf | hinvf
  · rw [detailedLoop_step_fail cfg u extraFuel urlF _ hurlFne hf]
    simp [nextPageError, hf, Except.map]
  · have hl2 : u.listing urlF =
        ⟨200, (u.listing urlF).products, (u.listing urlF).nextLinkUrl⟩ := by
      rw [← hinvf.1]
    rw [detailedLoop_step_invfail cfg u extraFuel urlF _
      (u.listing urlF).products (u.listing urlF).nextLinkUrl hurlFne hl2 hinvf.2]
    simp [nextPageError, hinvf.1, Except.map]

/-- Witness for C10: two pages of `uPage3Fail` are assembled successfully,
then the third listing request fails with status 500 and the walk yields that
failure instead of the two assembled pages. -/
theorem detailed_products_atomic_on_failure_witness :
    (get_detailed_products cfgW uPage3Fail 3).1 =
      some (Except.error (nextPageError uPage3Fail pageUrl3)) :=
  detailed_products_atomic_on_failure cfgW uPage3Fail 0
    [[rawProductA], [rawProductB]] fW3 pageUrl3 rfl (by decide) rfl
    (by decide) ⟨rfl, rfl, trivial⟩ rfl (by decide) (by decide)
    (Or.inl (by decide))
